import Mathlib

set_option maxRecDepth 16384

/-!
Shallow embedding of `blwipe.go` (the `blwipe` tool): a BitLocker
metadata locator/validator and cryptographic-erase driver.

Bytes are modelled as `Nat` values below 256 in a `List Nat`; all
multi-byte fields are little-endian, as decoded by Go's
`binary.Read(..., binary.LittleEndian, ...)`.  Machine integers
(`uint16`, `uint32`, `uint64`, `int64`) are modelled as `Nat` (or `Int`
where the source computes with `int64` bit operations); every value the
program actually manipulates is far below the overflow bounds, and the
reinterpretation `uint64 -> int64` performed by the source on metadata
offsets is the identity for values under 2^63.
-/

namespace Blwipe

/-- Little-endian value of a byte list (least significant byte first). -/
def readLE : List Nat → Nat
  | [] => 0
  | b :: bs => b + 256 * readLE bs

/-- The `n` raw bytes of `data` starting at byte offset `off`. -/
def getBytes (data : List Nat) (off n : Nat) : List Nat :=
  (data.drop off).take n

/-- Little-endian integer read of `n` bytes at offset `off`. -/
def getLE (data : List Nat) (off n : Nat) : Nat :=
  readLE (getBytes data off n)

/-!  CRC-32, IEEE polynomial, as computed by Go's `crc32.ChecksumIEEE`:
reflected algorithm with polynomial `0xEDB88320`, initial value
`0xFFFFFFFF` and final xor `0xFFFFFFFF`. -/

/-- One bit step of the reflected CRC-32 (IEEE polynomial). -/
def crc32Round (c : Nat) : Nat :=
  if c % 2 = 1 then (c / 2) ^^^ 0xEDB88320 else c / 2

/-- Iterate the CRC bit step. -/
def crc32Bits : Nat → Nat → Nat
  | 0, c => c
  | n + 1, c => crc32Bits n (crc32Round c)

/-- Fold one byte into the running CRC-32 state. -/
def crc32Byte (crc b : Nat) : Nat := crc32Bits 8 (crc ^^^ b)

/-- CRC-32 (IEEE) of a byte sequence, as `crc32.ChecksumIEEE`. -/
def crc32 (data : List Nat) : Nat :=
  (data.foldl crc32Byte 0xFFFFFFFF) ^^^ 0xFFFFFFFF

/-- The 8 magic bytes of the string constant `"-FVE-FS-"`. -/
def fveSignature : List Nat := [0x2D, 0x46, 0x56, 0x45, 0x2D, 0x46, 0x53, 0x2D]

/-- Source `VerifySignature`: exact byte-for-byte equality with `"-FVE-FS-"`. -/
def VerifySignature (b : List Nat) : Bool := b == fveSignature

/-!  GUID: mixed-endian structure, formatted upper-case by `Guid.String`. -/

/-- Source `Guid` struct: `A uint32`, `B, C uint16`, `D [2]byte`, `E [6]byte`. -/
structure Guid where
  A : Nat
  B : Nat
  C : Nat
  D : List Nat
  E : List Nat
deriving DecidableEq

/-- One upper-case hexadecimal digit. -/
def hexDigit (n : Nat) : Char :=
  if n < 10 then Char.ofNat (48 + n) else Char.ofNat (55 + n)

/-- Fixed-width upper-case hexadecimal rendering (as Go's zero-padded
`%0NX` verbs; fields decoded from their fixed-width byte layout always
fit their width, so the fixed width is exact). -/
def hexPad : Nat → Nat → String
  | _, 0 => ""
  | n, w + 1 => hexPad (n / 16) w ++ String.singleton (hexDigit (n % 16))

/-- Source `Guid.String`: renders
`%08X-%04X-%04X-%02X%02X-%02X%02X%02X%02X%02X%02X`. -/
def Guid.String (g : Guid) : String :=
  hexPad g.A 8 ++ "-" ++ hexPad g.B 4 ++ "-" ++ hexPad g.C 4 ++ "-" ++
  hexPad (g.D.getD 0 0) 2 ++ hexPad (g.D.getD 1 0) 2 ++ "-" ++
  hexPad (g.E.getD 0 0) 2 ++ hexPad (g.E.getD 1 0) 2 ++ hexPad (g.E.getD 2 0) 2 ++
  hexPad (g.E.getD 3 0) 2 ++ hexPad (g.E.getD 4 0) 2 ++ hexPad (g.E.getD 5 0) 2

/-- Source constant `INFO_GUID`. -/
def INFO_GUID : String := "4967D63B-2E29-4AD8-8399-F6A339E3D001"

/-!  The metadata information structure (`InfoStruct`) and its decoder. -/

/-- Source `InfoStruct` (with its embedded `InfoStructHeader` fields
flattened: `Signature`, `Size`, `Version`); the 4 padding bytes after the
header are skipped by the decoder and carry no field. -/
structure InfoStruct where
  Signature : List Nat
  Size : Nat
  Version : Nat
  VolumeSize : Nat
  ConvertSize : Nat
  HeaderSectors : Nat
  InfoOffsets : List Nat
  HeaderSectorsOffset : Nat
deriving DecidableEq

/-- Go zero value `InfoStruct{}` (all fields zero). -/
def InfoStruct.zero : InfoStruct :=
  { Signature := [0, 0, 0, 0, 0, 0, 0, 0]
    Size := 0
    Version := 0
    VolumeSize := 0
    ConvertSize := 0
    HeaderSectors := 0
    InfoOffsets := [0, 0, 0]
    HeaderSectorsOffset := 0 }

/-- The typed failures of `InfoStruct.Read`, one per `return`-with-error
path of the source (the source carries them as formatted error strings;
`checksumMismatch` records the stored and the computed CRC exactly as the
source's message does; the source's unknown-version message has a missing
format argument and carries no version value, so `unknownVersion` carries
none either). -/
inductive ReadErr where
  | shortRead
  | badSignature (sig : List Nat)
  | unknownVersion
  | sizeTooSmall
  | shortValidation
  | checksumMismatch (stored computed : Nat)
deriving DecidableEq

/-- The `switch hdr.Version` dispatch of `InfoStruct.Read`: version 1
keeps the raw size, version 2 multiplies it by 16, anything else is an
unknown-version error. -/
def interpSize (rawSize ver : Nat) : Except ReadErr Nat :=
  if ver = 1 then .ok rawSize
  else if ver = 2 then .ok (rawSize * 16)
  else .error .unknownVersion

/-- The final `binary.Read(bytes.NewReader(buf), binary.LittleEndian, s)`
of `InfoStruct.Read`: little-endian fixed-layout deserialization of the
64-byte `InfoStruct` image (header at 0, 4 padding bytes at 12,
`VolumeSize` at 16, `ConvertSize` at 24, `HeaderSectors` at 28,
`InfoOffsets` at 32/40/48, `HeaderSectorsOffset` at 56). -/
def decodeInfoStruct (buf : List Nat) : InfoStruct :=
  { Signature := getBytes buf 0 8
    Size := getLE buf 8 2
    Version := getLE buf 10 2
    VolumeSize := getLE buf 16 8
    ConvertSize := getLE buf 24 4
    HeaderSectors := getLE buf 28 4
    InfoOffsets := [getLE buf 32 8, getLE buf 40 8, getLE buf 48 8]
    HeaderSectorsOffset := getLE buf 56 8 }

/-- Source `func (s *InfoStruct) Read(r io.ReadSeeker) (size int64, err error)`.
`data` is the byte stream starting at the reader's current position
(the candidate metadata-block offset).  The result pairs the returned
`(size, err)` (merged into an `Except`; the source's callers only use
`size` when `err == nil`) with the final state of the receiver `s`:
every error path of the source returns before the final `binary.Read`
into `s`, so it leaves `s` untouched.  The branch order follows the
source: 12-byte header read, signature check, version dispatch,
minimum-size check, full payload re-read from the header start,
validation-footer read, CRC comparison, then `size += validation.Size`
and the deserialization of `buf` into `s` (whose own short-buffer error
path is unreachable because `size >= 64` has been checked). -/
def InfoStruct.Read (s : InfoStruct) (data : List Nat) : Except ReadErr Nat × InfoStruct :=
  if data.length < 12 then (.error .shortRead, s)
  else if ¬ VerifySignature (getBytes data 0 8) then
    (.error (.badSignature (getBytes data 0 8)), s)
  else
    match interpSize (getLE data 8 2) (getLE data 10 2) with
    | .error e => (.error e, s)
    | .ok sz =>
      if sz < 64 then (.error .sizeTooSmall, s)
      else if data.length < sz then (.error .shortRead, s)
      else if data.length < sz + 8 then (.error .shortValidation, s)
      else if crc32 (getBytes data 0 sz) ≠ getLE data (sz + 4) 4 then
        (.error (.checksumMismatch (getLE data (sz + 4) 4) (crc32 (getBytes data 0 sz))), s)
      else if (getBytes data 0 sz).length < 64 then (.error .shortRead, s)
      else (.ok (sz + getLE data sz 2), decodeInfoStruct (getBytes data 0 sz))

/-!  The volume header and its validation (the `main` driver's first phase). -/

/-- Source `VolumeHeader`: fixed little-endian layout of 216 bytes.
Byte offsets: `Jmp` 0, `Signature` 3, `SectorSize` 11,
`SectorsPerCluster` 13, `ReservedClusters` 14, two anonymous padding
spans 16..39, `NumSectors` 40, `MftStartCluster` 48, `MetadataLcn` 56,
96 padding bytes 64..159, `Guid` 160, `InfoOffsets` 176/184/192,
`EOWOffsets` 200/208. -/
structure VolumeHeader where
  Jmp : List Nat
  Signature : List Nat
  SectorSize : Nat
  SectorsPerCluster : Nat
  ReservedClusters : Nat
  NumSectors : Nat
  MftStartCluster : Nat
  MetadataLcn : Nat
  Guid : Guid
  InfoOffsets : List Nat
  EOWOffsets : List Nat
deriving DecidableEq

/-- Decode a `Guid` at byte offset `off` (little-endian `A`, `B`, `C`;
raw bytes `D`, `E`). -/
def parseGuid (data : List Nat) (off : Nat) : Guid :=
  { A := getLE data off 4
    B := getLE data (off + 4) 2
    C := getLE data (off + 6) 2
    D := getBytes data (off + 8) 2
    E := getBytes data (off + 10) 6 }

/-- The driver's `binary.Read(f, binary.LittleEndian, &hdr)`: decode the
216-byte `VolumeHeader` image; `none` models the fatal read error when
fewer bytes are available. -/
def parseVolumeHeader (data : List Nat) : Option VolumeHeader :=
  if data.length < 216 then none
  else some
    { Jmp := getBytes data 0 3
      Signature := getBytes data 3 8
      SectorSize := getLE data 11 2
      SectorsPerCluster := getLE data 13 1
      ReservedClusters := getLE data 14 2
      NumSectors := getLE data 40 8
      MftStartCluster := getLE data 48 8
      MetadataLcn := getLE data 56 8
      Guid := parseGuid data 160
      InfoOffsets := [getLE data 176 8, getLE data 184 8, getLE data 192 8]
      EOWOffsets := [getLE data 200 8, getLE data 208 8] }

/-- The driver's fatal terminations (`fatal(...)` calls, each printing a
diagnostic to stderr and exiting with status 1).  `noValidBlocks` is the
message `"invalid or no metadata blocks found!"`. -/
inductive Fatal where
  | readHeader
  | badSignature (sig : List Nat)
  | weirdSectorSize (n : Nat)
  | unsupportedGuid (g : Guid)
  | noValidBlocks
deriving DecidableEq

/-- The driver's volume-header validation, in source order: signature
check, `hdr.SectorSize < 512` check, GUID string comparison against
`INFO_GUID`.  `none` means the header is accepted. -/
def checkVolumeHeader (hdr : VolumeHeader) : Option Fatal :=
  if ¬ VerifySignature hdr.Signature then some (.badSignature hdr.Signature)
  else if hdr.SectorSize < 512 then some (.weirdSectorSize hdr.SectorSize)
  else if hdr.Guid.String ≠ INFO_GUID then some (.unsupportedGuid hdr.Guid)
  else none

/-!  The metadata-block probe loop of `main`. -/

/-- The driver's loop state: the shared `info` receiver struct and the
`validInfoSize` / `validInfoOffsets` variables recording the most
recently validated block (`validInfoSize` is recorded before the
sector-rounding of the local `infoSize`, which is only printed). -/
structure ScanState where
  info : InfoStruct
  validInfoSize : Nat
  validInfoOffsets : List Nat
deriving DecidableEq

/-- Initial loop state: `info := InfoStruct{}`, `validInfoSize` zero,
`validInfoOffsets` the zero array. -/
def ScanState.init : ScanState :=
  { info := InfoStruct.zero, validInfoSize := 0, validInfoOffsets := [0, 0, 0] }

/-- One iteration of the probe loop at metadata offset `infoOff`: seek to
`offset + infoOff`, call `info.Read`; on error, log and continue; on
success, record the returned size and the offsets read from the block. -/
def scanStep (disk : List Nat) (off : Nat) (st : ScanState) (infoOff : Nat) : ScanState :=
  match InfoStruct.Read st.info (disk.drop (off + infoOff)) with
  | (.error _, s) => { st with info := s }
  | (.ok sz, s) => { info := s, validInfoSize := sz, validInfoOffsets := s.InfoOffsets }

/-- The whole probe loop over the 3 candidate offsets of the header. -/
def scanBlocks (disk : List Nat) (off : Nat) (hdr : VolumeHeader) : ScanState :=
  hdr.InfoOffsets.foldl (scanStep disk off) ScanState.init

/-!  Erase planning and the driver. -/

/-- Source `RegionDesc`. -/
structure RegionDesc where
  Name : String
  Offset : Nat
  Size : Nat
deriving DecidableEq

/-- The `eraseRegions` literal of `main`: volume header at 0 with the
header's sector size, then the three metadata blocks at the offsets
recorded from the last validated block, each with length
`validInfoSize` (the unrounded size recorded by the probe loop). -/
def planRegions (hdr : VolumeHeader) (st : ScanState) : List RegionDesc :=
  [{ Name := "volume header", Offset := 0, Size := hdr.SectorSize },
   { Name := "metadata block 0", Offset := st.validInfoOffsets.getD 0 0, Size := st.validInfoSize },
   { Name := "metadata block 1", Offset := st.validInfoOffsets.getD 1 0, Size := st.validInfoSize },
   { Name := "metadata block 2", Offset := st.validInfoOffsets.getD 2 0, Size := st.validInfoSize }]

/-- The sector-rounding expression of `main`
(`(infoSize + int64(hdr.SectorSize) - 1) & ^(int64(hdr.SectorSize) - 1)`),
on `Int` with the source's `int64` bit operations (identical for the
in-range values the program handles). -/
def roundToSector (size sectorSize : Int) : Int :=
  Int.land (size + sectorSize - 1) (Int.lnot (sectorSize - 1))

/-- Outcome of a run of `main` after flag handling: either a `fatal`
exit (non-zero status) or normal completion carrying the list of erase
regions handed to the wipe loop (empty when `-wipe` was not given). -/
inductive RunOutcome where
  | fatal (f : Fatal)
  | done (regions : List RegionDesc)
deriving DecidableEq

/-- The driver `main` (after flag parsing and file opening): read and
validate the volume header at `off`, probe the three metadata blocks,
fail if none validated, otherwise plan the erase regions when a wipe is
requested. -/
def runDriver (disk : List Nat) (off : Nat) (doWipe : Bool) : RunOutcome :=
  match parseVolumeHeader (disk.drop off) with
  | none => .fatal .readHeader
  | some hdr =>
    match checkVolumeHeader hdr with
    | some f => .fatal f
    | none =>
      let st := scanBlocks disk off hdr
      if st.validInfoSize = 0 then .fatal .noValidBlocks
      else .done (if doWipe then planRegions hdr st else [])

/-!  The wipe executor (the `for _, region := range eraseRegions` loop). -/

/-- Environment for the wipe loop's two effectful collaborators:
`randOk i` tells whether `rand.Read` succeeds for the `i`-th region,
`randByte i j` is the `j`-th random byte it would produce, and
`writeOk i` tells whether the `f.Write` for the `i`-th region succeeds. -/
structure WipeEnv where
  randOk : Nat → Bool
  randByte : Nat → Nat → Nat
  writeOk : Nat → Bool

/-- Observable events of the wipe loop: a completed overwrite (with the
absolute offset written and the full random buffer), a reported write
failure (loop continues), or the fatal abort when `rand.Read` fails
(process exit: no further region is attempted). -/
inductive WipeEvent where
  | wrote (name : String) (off : Nat) (buf : List Nat)
  | writeFailed (name : String)
  | abortEntropy
deriving DecidableEq

/-- The `eraseBuf` of one loop iteration: `make([]byte, region.Size)`
filled by `rand.Read`, one byte per index. -/
def wipeBuf (env : WipeEnv) (i : Nat) (r : RegionDesc) : List Nat :=
  (List.range r.Size).map (env.randByte i)

/-- The observable effect of one iteration whose `rand.Read` succeeded:
seek to `offset + region.Offset` and write the buffer in full, or report
the write error and fall through to the next region. -/
def wipeEvent (env : WipeEnv) (base i : Nat) (r : RegionDesc) : WipeEvent :=
  if env.writeOk i then WipeEvent.wrote r.Name (base + r.Offset) (wipeBuf env i r)
  else WipeEvent.writeFailed r.Name

/-- The wipe loop over the planned regions, from region index `i`: for
each region make a buffer of exactly `region.Size` random bytes; a
`rand.Read` failure hits `fatal` (terminating the run, so no later
region is attempted); otherwise the region is processed and the loop
continues with the next region. -/
def wipeRegions (env : WipeEnv) (base : Nat) : List RegionDesc → Nat → List WipeEvent
  | [], _ => []
  | r :: rest, i =>
    if env.randOk i then wipeEvent env base i r :: wipeRegions env base rest (i + 1)
    else [WipeEvent.abortEntropy]

/-- Power-of-two test, modelled from the spec's words (the source has no
such check); used only to state spec-side claims about sector sizes. -/
def specPow2 (n : Nat) : Bool := n != 0 && (n &&& (n - 1)) == 0

/-!  Concrete test vectors.  `sampleBlock` is a well-formed metadata
block: version 1, declared size 64, a correct IEEE CRC-32 (`0x080D84F0`)
over its 64 payload bytes, and a validation footer with extra size 36,
so its total encoded size is 100.  Its recorded `InfoOffsets` are
224, 1000, 2000. -/

/-- A well-formed 72-byte metadata block (64-byte payload + footer). -/
def sampleBlock : List Nat :=
  [45, 70, 86, 69, 45, 70, 83, 45, 64, 0, 1, 0, 0, 0, 0, 0,
   0, 0, 0, 16, 0, 0, 0, 0, 7, 0, 0, 0, 2, 0, 0, 0,
   224, 0, 0, 0, 0, 0, 0, 0, 232, 3, 0, 0, 0, 0, 0, 0,
   208, 7, 0, 0, 0, 0, 0, 0, 86, 52, 18, 0, 0, 0, 0, 0,
   36, 0, 1, 0, 240, 132, 13, 8]

/-- `sampleBlock` with its stored footer CRC zeroed: every byte equal,
except the last four (the stored checksum), which are 0. -/
def badCrcBlock : List Nat :=
  [45, 70, 86, 69, 45, 70, 83, 45, 64, 0, 1, 0, 0, 0, 0, 0,
   0, 0, 0, 16, 0, 0, 0, 0, 7, 0, 0, 0, 2, 0, 0, 0,
   224, 0, 0, 0, 0, 0, 0, 0, 232, 3, 0, 0, 0, 0, 0, 0,
   208, 7, 0, 0, 0, 0, 0, 0, 86, 52, 18, 0, 0, 0, 0, 0,
   36, 0, 1, 0, 0, 0, 0, 0]

/-- A bare 12-byte metadata-block header with a valid signature,
version 1 and declared size 32 (below the 64-byte minimum); no payload
bytes follow at all. -/
def smallHdrBlock : List Nat :=
  [45, 70, 86, 69, 45, 70, 83, 45, 32, 0, 1, 0]

/-- A 288-byte volume image: a valid 216-byte volume header (sector size
512, the `INFO_GUID` format GUID, all three metadata offsets pointing at
byte 216) followed by `sampleBlock` at byte 216. -/
def sampleDisk : List Nat :=
  [235, 88, 144, 45, 70, 86, 69, 45, 70, 83, 45, 0, 2, 8, 0, 0,
   0, 0, 0, 0, 0, 0, 0, 0, 0, 0, 0, 0, 0, 0, 0, 0,
   0, 0, 0, 0, 0, 0, 0, 0, 0, 0, 16, 0, 0, 0, 0, 0,
   0, 0, 0, 0, 0, 0, 0, 0, 0, 0, 0, 0, 0, 0, 0, 0,
   0, 0, 0, 0, 0, 0, 0, 0, 0, 0, 0, 0, 0, 0, 0, 0,
   0, 0, 0, 0, 0, 0, 0, 0, 0, 0, 0, 0, 0, 0, 0, 0,
   0, 0, 0, 0, 0, 0, 0, 0, 0, 0, 0, 0, 0, 0, 0, 0,
   0, 0, 0, 0, 0, 0, 0, 0, 0, 0, 0, 0, 0, 0, 0, 0,
   0, 0, 0, 0, 0, 0, 0, 0, 0, 0, 0, 0, 0, 0, 0, 0,
   0, 0, 0, 0, 0, 0, 0, 0, 0, 0, 0, 0, 0, 0, 0, 0,
   59, 214, 103, 73, 41, 46, 216, 74, 131, 153, 246, 163, 57, 227, 208, 1,
   216, 0, 0, 0, 0, 0, 0, 0, 216, 0, 0, 0, 0, 0, 0, 0,
   216, 0, 0, 0, 0, 0, 0, 0, 0, 0, 0, 0, 0, 0, 0, 0,
   0, 0, 0, 0, 0, 0, 0, 0,
   45, 70, 86, 69, 45, 70, 83, 45, 64, 0, 1, 0, 0, 0, 0, 0,
   0, 0, 0, 16, 0, 0, 0, 0, 7, 0, 0, 0, 2, 0, 0, 0,
   224, 0, 0, 0, 0, 0, 0, 0, 232, 3, 0, 0, 0, 0, 0, 0,
   208, 7, 0, 0, 0, 0, 0, 0, 86, 52, 18, 0, 0, 0, 0, 0,
   36, 0, 1, 0, 240, 132, 13, 8]

/-- The decoded form of `sampleDisk`'s volume header. -/
def sampleHdr : VolumeHeader :=
  { Jmp := [235, 88, 144]
    Signature := [45, 70, 86, 69, 45, 70, 83, 45]
    SectorSize := 512
    SectorsPerCluster := 8
    ReservedClusters := 0
    NumSectors := 1048576
    MftStartCluster := 0
    MetadataLcn := 0
    Guid := { A := 1231541819, B := 11817, C := 19160,
              D := [131, 153], E := [246, 163, 57, 227, 208, 1] }
    InfoOffsets := [216, 216, 216]
    EOWOffsets := [0, 0] }

/-- `sampleHdr` with the non-power-of-two sector size 513. -/
def hdr513 : VolumeHeader := { sampleHdr with SectorSize := 513 }

/-- A 216-byte all-zero volume image (its header fails the signature
check). -/
def zerosDisk : List Nat := List.replicate 216 0

/-- The decoded form of `zerosDisk`'s volume header: every field zero. -/
def zeroHdr : VolumeHeader :=
  { Jmp := [0, 0, 0]
    Signature := [0, 0, 0, 0, 0, 0, 0, 0]
    SectorSize := 0
    SectorsPerCluster := 0
    ReservedClusters := 0
    NumSectors := 0
    MftStartCluster := 0
    MetadataLcn := 0
    Guid := { A := 0, B := 0, C := 0, D := [0, 0], E := [0, 0, 0, 0, 0, 0] }
    InfoOffsets := [0, 0, 0]
    EOWOffsets := [0, 0] }

/-- `sampleDisk` truncated to its 216-byte header: the three metadata
candidates (all at offset 216) have no bytes at all, so none validates. -/
def headerOnlyDisk : List Nat := sampleDisk.take 216

/-- A wipe environment whose entropy source always succeeds, whose
`i`-th buffer is constantly `i + 1`, and whose write fails exactly for
region index 1. -/
def envWriteFail : WipeEnv :=
  { randOk := fun _ => true, randByte := fun i _ => i + 1, writeOk := fun i => i != 1 }

/-- A wipe environment whose entropy source fails from region index 1 on. -/
def envEntropyFail : WipeEnv :=
  { randOk := fun i => i == 0, randByte := fun i _ => i + 1, writeOk := fun _ => true }

/-- Two concrete regions for exercising the wipe loop. -/
def sampleRegions : List RegionDesc :=
  [{ Name := "volume header", Offset := 0, Size := 2 },
   { Name := "metadata block 0", Offset := 5, Size := 3 }]

/-- The struct encoded by `sampleBlock`'s payload. -/
def sampleInfo : InfoStruct :=
  { Signature := [45, 70, 86, 69, 45, 70, 83, 45]
    Size := 64
    Version := 1
    VolumeSize := 268435456
    ConvertSize := 7
    HeaderSectors := 2
    InfoOffsets := [224, 1000, 2000]
    HeaderSectorsOffset := 1193046 }

/-!  Theorems. -/

/-- The byte buffer read for a size-`n` payload has exactly `n` bytes
when the stream is long enough. -/
theorem getBytes_zero_length {data : List Nat} {n : Nat} (h : n ≤ data.length) :
    (getBytes data 0 n).length = n := by
  simp only [getBytes, List.drop_zero, List.length_take]
  omega

/-- The IEEE CRC-32 of `sampleBlock`'s 64-byte payload. -/
theorem crcSample : crc32 (getBytes sampleBlock 0 64) = 135103728 := by
  simp [crc32, crc32Byte, crc32Bits, crc32Round, getBytes, sampleBlock]

/-- `badCrcBlock` has the same payload, hence the same computed CRC. -/
theorem crcBad : crc32 (getBytes badCrcBlock 0 64) = 135103728 := by
  have h : getBytes badCrcBlock 0 64 = getBytes sampleBlock 0 64 := by decide
  rw [h]
  exact crcSample

/-- Concrete evaluation: decoding `sampleBlock` succeeds with total size
100 and the struct `sampleInfo`, whatever the receiver held before. -/
theorem read_sampleBlock (s : InfoStruct) :
    InfoStruct.Read s sampleBlock = (.ok 100, sampleInfo) := by
  unfold InfoStruct.Read
  rw [if_neg (by decide), if_neg (not_not_intro (by decide))]
  simp only [show interpSize (getLE sampleBlock 8 2) (getLE sampleBlock 10 2) = .ok 64 from rfl]
  rw [if_neg (by decide), if_neg (by decide), if_neg (by decide),
    if_neg (not_not_intro (by rw [crcSample]; decide)), if_neg (by decide)]
  rfl

/-- Concrete evaluation: decoding `badCrcBlock` fails at the checksum
gate with the stored CRC 0 and the computed CRC `0x080D84F0`. -/
theorem read_badCrcBlock (s : InfoStruct) :
    InfoStruct.Read s badCrcBlock = (.error (.checksumMismatch 0 135103728), s) := by
  unfold InfoStruct.Read
  rw [if_neg (by decide), if_neg (not_not_intro (by decide))]
  simp only [show interpSize (getLE badCrcBlock 8 2) (getLE badCrcBlock 10 2) = .ok 64 from rfl]
  rw [if_neg (by decide), if_neg (by decide), if_neg (by decide),
    if_pos (show crc32 (getBytes badCrcBlock 0 64) ≠ getLE badCrcBlock (64 + 4) 4 by
      rw [crcBad]; decide), crcBad]
  rfl

/-- Every path of `InfoStruct.Read` either leaves the receiver struct
untouched or returns a successful size. -/
theorem read_result_cases (s : InfoStruct) (data : List Nat) :
    (InfoStruct.Read s data).2 = s ∨ ∃ n, (InfoStruct.Read s data).1 = Except.ok n := by
  unfold InfoStruct.Read
  repeat' split
  all_goals simp

/-- C3: whenever the decoder reaches the integrity gate (header read,
signature, version and minimum size all passed, payload and footer
available) and the IEEE CRC-32 computed over the entire `sz`-byte
payload buffer differs from the footer's stored checksum, `Read` fails
with a checksum-mismatch error carrying the stored and the computed
value, and the receiver struct is left untouched (no field is
deserialized). -/
theorem c3_checksum_gate (s : InfoStruct) (data : List Nat) (sz : Nat)
    (h12 : ¬ data.length < 12)
    (hsig : VerifySignature (getBytes data 0 8) = true)
    (hver : interpSize (getLE data 8 2) (getLE data 10 2) = .ok sz)
    (hmin : ¬ sz < 64)
    (hlen : ¬ data.length < sz + 8)
    (hcrc : crc32 (getBytes data 0 sz) ≠ getLE data (sz + 4) 4) :
    InfoStruct.Read s data =
      (.error (.checksumMismatch (getLE data (sz + 4) 4) (crc32 (getBytes data 0 sz))), s) := by
  have hlen2 : ¬ data.length < sz := by omega
  unfold InfoStruct.Read
  rw [if_neg h12, if_neg (not_not_intro hsig)]
  simp only [hver]
  rw [if_neg hmin, if_neg hlen2, if_neg hlen, if_pos hcrc]

/-- C3 witness: on the concrete block `badCrcBlock` (stored CRC 0, but
computed CRC `0x080D84F0`) the decoder fails with exactly that
checksum-mismatch error and an unchanged receiver. -/
theorem c3_checksum_gate_witness :
    InfoStruct.Read InfoStruct.zero badCrcBlock =
      (.error (.checksumMismatch (getLE badCrcBlock (64 + 4) 4)
        (crc32 (getBytes badCrcBlock 0 64))), InfoStruct.zero) :=
  c3_checksum_gate InfoStruct.zero badCrcBlock 64 (by decide) (by decide) (by rfl)
    (by decide) (by decide) (by rw [crcBad]; decide)

/-- C4: the declared size of a metadata-block header is interpreted by
version tag: version 1 keeps the raw 16-bit field, version 2 multiplies
it by 16, and every other version fails with the unsupported-version
error. -/
theorem c4_version_dispatch (raw v : Nat) :
    (v = 1 → interpSize raw v = .ok raw) ∧
    (v = 2 → interpSize raw v = .ok (raw * 16)) ∧
    (v ≠ 1 → v ≠ 2 → interpSize raw v = .error .unknownVersion) := by
  refine ⟨fun h1 => ?_, fun h2 => ?_, fun h1 h2 => ?_⟩ <;> simp [interpSize, *]

/-- C4 witness: the three dispatch outcomes at concrete inputs. -/
theorem c4_version_dispatch_witness :
    interpSize 300 1 = .ok 300 ∧ interpSize 300 2 = .ok 4800 ∧
    interpSize 300 3 = .error .unknownVersion :=
  ⟨(c4_version_dispatch 300 1).1 rfl, (c4_version_dispatch 300 2).2.1 rfl,
   (c4_version_dispatch 300 3).2.2 (by decide) (by decide)⟩

/-- C7: when the integrity gate passes (same staging as C3, with the
computed CRC equal to the stored one), `Read` returns the total encoded
size, namely the version-interpreted payload size `sz` plus the
footer's 16-bit extra-size field at offset `sz`, together with the
little-endian deserialization of the payload buffer into the typed
struct. -/
theorem c7_success (s : InfoStruct) (data : List Nat) (sz : Nat)
    (h12 : ¬ data.length < 12)
    (hsig : VerifySignature (getBytes data 0 8) = true)
    (hver : interpSize (getLE data 8 2) (getLE data 10 2) = .ok sz)
    (hmin : ¬ sz < 64)
    (hlen : ¬ data.length < sz + 8)
    (hcrc : crc32 (getBytes data 0 sz) = getLE data (sz + 4) 4) :
    InfoStruct.Read s data =
      (.ok (sz + getLE data sz 2), decodeInfoStruct (getBytes data 0 sz)) := by
  have hlen2 : ¬ data.length < sz := by omega
  have hgb : (getBytes data 0 sz).length = sz := getBytes_zero_length (by omega)
  unfold InfoStruct.Read
  rw [if_neg h12, if_neg (not_not_intro hsig)]
  simp only [hver]
  rw [if_neg hmin, if_neg hlen2, if_neg hlen, if_neg (not_not_intro hcrc),
    if_neg (by rw [hgb]; exact hmin)]

/-- C7 witness: decoding the concrete well-formed block `sampleBlock`
(version 1, payload size 64, footer extra size 36) succeeds with total
size 64 + 36 = 100 and the deserialized struct. -/
theorem c7_success_witness :
    InfoStruct.Read InfoStruct.zero sampleBlock =
      (.ok (64 + getLE sampleBlock 64 2), decodeInfoStruct (getBytes sampleBlock 0 64)) :=
  c7_success InfoStruct.zero sampleBlock 64 (by decide) (by decide) (by rfl)
    (by decide) (by decide) (by rw [crcSample]; decide)

/-- C8: when the version-interpreted computed size is below 64, `Read`
fails with the size-too-small error and an unchanged receiver; the
hypotheses constrain only the 12 header bytes, so no payload byte is
read. -/
theorem c8_size_too_small (s : InfoStruct) (data : List Nat) (sz : Nat)
    (h12 : ¬ data.length < 12)
    (hsig : VerifySignature (getBytes data 0 8) = true)
    (hver : interpSize (getLE data 8 2) (getLE data 10 2) = .ok sz)
    (hsmall : sz < 64) :
    InfoStruct.Read s data = (.error .sizeTooSmall, s) := by
  unfold InfoStruct.Read
  rw [if_neg h12, if_neg (not_not_intro hsig)]
  simp only [hver]
  rw [if_pos hsmall]

/-- C8 witness: a bare 12-byte header declaring size 32 (version 1) is
rejected as too small even though not a single payload byte exists. -/
theorem c8_size_too_small_witness :
    InfoStruct.Read InfoStruct.zero smallHdrBlock = (.error .sizeTooSmall, InfoStruct.zero) :=
  c8_size_too_small InfoStruct.zero smallHdrBlock 32 (by decide) (by decide)
    (by rfl) (by decide)

/-- C10: whenever `InfoStruct.Read` returns an error, the receiver
struct is completely unchanged: its fields are only assigned after the
checksum comparison has succeeded. -/
theorem c10_error_unchanged (s : InfoStruct) (data : List Nat) (e : ReadErr)
    (h : (InfoStruct.Read s data).1 = .error e) :
    (InfoStruct.Read s data).2 = s := by
  rcases read_result_cases s data with h2 | ⟨n, hn⟩
  · exact h2
  · rw [hn] at h
    exact absurd h (by simp)

/-- C10 witness: the checksum-mismatch failure on `badCrcBlock` leaves
the zero-initialized receiver exactly as it was. -/
theorem c10_error_unchanged_witness :
    (InfoStruct.Read InfoStruct.zero badCrcBlock).2 = InfoStruct.zero :=
  c10_error_unchanged InfoStruct.zero badCrcBlock (.checksumMismatch 0 135103728)
    (by rw [read_badCrcBlock])

/-!  Concrete evaluations of the driver pipeline on `sampleDisk`. -/

/-- `sampleDisk`'s volume header decodes to `sampleHdr`. -/
theorem parse_sample : parseVolumeHeader (sampleDisk.drop 0) = some sampleHdr := by decide

/-- `sampleHdr` passes all three volume-header checks. -/
theorem check_sample : checkVolumeHeader sampleHdr = none := by decide

/-- The stream at metadata offset 216 of `sampleDisk` is `sampleBlock`. -/
theorem drop_sample : sampleDisk.drop (0 + 216) = sampleBlock := by decide

/-- Probing `sampleDisk`'s three candidates (all at offset 216) ends
with the struct `sampleInfo`, valid size 100 and the block's recorded
offsets 224, 1000, 2000. -/
theorem scan_sample :
    scanBlocks sampleDisk 0 sampleHdr =
      { info := sampleInfo, validInfoSize := 100, validInfoOffsets := [224, 1000, 2000] } := by
  have h : ∀ s : InfoStruct, InfoStruct.Read s (sampleDisk.drop (0 + 216)) = (.ok 100, sampleInfo) :=
    fun s => by rw [drop_sample]; exact read_sampleBlock s
  unfold scanBlocks scanStep
  simp only [sampleHdr, sampleInfo, List.foldl_cons, List.foldl_nil, h]

/-!  The sector-rounding arithmetic.  `Nat.ldiff` and the `Int` bitwise
operations are defined through `Nat.bitwise`, which the kernel cannot
evaluate definitionally, so concrete values are obtained through the
closed form proved here. -/

/-- Bitwise and-not of non-negative integers is `Nat.ldiff`. -/
theorem land_lnot_natCast (a b : Nat) :
    Int.land (a : Int) (Int.lnot (b : Int)) = (Nat.ldiff a b : Int) := rfl

/-- Clearing the low `k` bits of `x` rounds it down to a multiple of
`2 ^ k`. -/
theorem ldiff_two_pow_sub_one (x k : Nat) :
    Nat.ldiff x (2 ^ k - 1) = 2 ^ k * (x / 2 ^ k) := by
  apply Nat.eq_of_testBit_eq
  intro i
  rw [Nat.testBit_ldiff, Nat.testBit_two_pow_sub_one, Nat.testBit_mul_pow_two]
  rcases Nat.lt_or_ge i k with h | h
  · simp [h, Nat.not_le.mpr h]
  · have hik : k + (i - k) = i := by omega
    rw [← Nat.shiftRight_eq_div_pow, Nat.testBit_shiftRight, hik]
    simp [h, Nat.not_lt.mpr h, Bool.and_comm]

/-- Closed form of the source's rounding expression on non-negative
values with a power-of-two sector size. -/
theorem roundToSector_natCast (s k : Nat) :
    roundToSector (s : Int) ((2 ^ k : Nat) : Int) =
      ((2 ^ k * ((s + 2 ^ k - 1) / 2 ^ k) : Nat) : Int) := by
  have hq1 : 1 ≤ 2 ^ k := Nat.one_le_two_pow
  have h1 : (s : Int) + ((2 ^ k : Nat) : Int) - 1 = ((s + 2 ^ k - 1 : Nat) : Int) := by omega
  have h2 : ((2 ^ k : Nat) : Int) - 1 = ((2 ^ k - 1 : Nat) : Int) := by omega
  unfold roundToSector
  rw [h1, h2, land_lnot_natCast, ldiff_two_pow_sub_one]

/-- The concrete rounding used by `sampleDisk`'s scenario: a 100-byte
total size rounds up to one 512-byte sector. -/
theorem round_100_512 : roundToSector 100 512 = 512 := by
  have h := roundToSector_natCast 100 9
  norm_num at h
  exact h

/-- C1 (amended): when a wipe is requested and at least one metadata
block validated, the erase plan is exactly 4 regions: the volume header
at offset 0 with the header's sector size as length, then metadata
blocks 0, 1, 2 at the three offsets recorded inside the most recently
validated block, each with length equal to that block's total encoded
size as returned by the decoder, NOT rounded to the sector size (the
sector-rounded value is computed only for the log line). -/
theorem c1_plan_regions (disk : List Nat) (off : Nat) (hdr : VolumeHeader)
    (hparse : parseVolumeHeader (disk.drop off) = some hdr)
    (hcheck : checkVolumeHeader hdr = none)
    (hvalid : (scanBlocks disk off hdr).validInfoSize ≠ 0) :
    runDriver disk off true = .done
      [{ Name := "volume header", Offset := 0, Size := hdr.SectorSize },
       { Name := "metadata block 0",
         Offset := (scanBlocks disk off hdr).validInfoOffsets.getD 0 0,
         Size := (scanBlocks disk off hdr).validInfoSize },
       { Name := "metadata block 1",
         Offset := (scanBlocks disk off hdr).validInfoOffsets.getD 1 0,
         Size := (scanBlocks disk off hdr).validInfoSize },
       { Name := "metadata block 2",
         Offset := (scanBlocks disk off hdr).validInfoOffsets.getD 2 0,
         Size := (scanBlocks disk off hdr).validInfoSize }] := by
  unfold runDriver
  simp only [hparse, hcheck, planRegions]
  rw [if_neg hvalid]
  simp

/-- C1 counterexample to the claim as stated: on `sampleDisk` the last
validated block has total encoded size 100 and the header's sector size
is 512, so the sector-rounded size is 512 — yet the three planned
metadata regions have length 100, not 512. -/
theorem c1_counterexample :
    runDriver sampleDisk 0 true = .done
      [{ Name := "volume header", Offset := 0, Size := 512 },
       { Name := "metadata block 0", Offset := 224, Size := 100 },
       { Name := "metadata block 1", Offset := 1000, Size := 100 },
       { Name := "metadata block 2", Offset := 2000, Size := 100 }] ∧
    roundToSector 100 512 = 512 ∧ (100 : Nat) ≠ 512 := by
  refine ⟨?_, round_100_512, by decide⟩
  unfold runDriver
  simp only [parse_sample, check_sample, scan_sample, planRegions]
  decide

/-- C1 witness: the amended plan shape, instantiated on `sampleDisk`. -/
theorem c1_plan_regions_witness :
    runDriver sampleDisk 0 true = .done
      [{ Name := "volume header", Offset := 0, Size := sampleHdr.SectorSize },
       { Name := "metadata block 0",
         Offset := (scanBlocks sampleDisk 0 sampleHdr).validInfoOffsets.getD 0 0,
         Size := (scanBlocks sampleDisk 0 sampleHdr).validInfoSize },
       { Name := "metadata block 1",
         Offset := (scanBlocks sampleDisk 0 sampleHdr).validInfoOffsets.getD 1 0,
         Size := (scanBlocks sampleDisk 0 sampleHdr).validInfoSize },
       { Name := "metadata block 2",
         Offset := (scanBlocks sampleDisk 0 sampleHdr).validInfoOffsets.getD 2 0,
         Size := (scanBlocks sampleDisk 0 sampleHdr).validInfoSize }] :=
  c1_plan_regions sampleDisk 0 sampleHdr parse_sample check_sample
    (by rw [scan_sample]; decide)

/-- C2 (amended): volume-header validation accepts the header if and
only if its signature equals the magic, its sector size is at least 512
and its GUID renders to the one known format identifier — the source
has NO power-of-two check on the sector size; and any failing check is
fatal to the whole run (the driver terminates with that fatal outcome,
no partial mode). -/
theorem c2_header_validation :
    (∀ hdr : VolumeHeader, checkVolumeHeader hdr = none ↔
      (VerifySignature hdr.Signature = true ∧ 512 ≤ hdr.SectorSize ∧
        hdr.Guid.String = INFO_GUID)) ∧
    (∀ (disk : List Nat) (off : Nat) (w : Bool) (hdr : VolumeHeader) (f : Fatal),
      parseVolumeHeader (disk.drop off) = some hdr →
      checkVolumeHeader hdr = some f → runDriver disk off w = .fatal f) := by
  constructor
  · intro hdr
    constructor
    · intro h
      unfold checkVolumeHeader at h
      split at h
      · simp at h
      · split at h
        · simp at h
        · split at h
          · simp at h
          · rename_i h1 h2 h3
            refine ⟨by simpa using h1, by omega, by simpa using h3⟩
    · rintro ⟨h1, h2, h3⟩
      unfold checkVolumeHeader
      rw [if_neg (not_not_intro h1), if_neg (by omega), if_neg (not_not_intro h3)]
  · intro disk off w hdr f hp hc
    unfold runDriver
    simp only [hp, hc]

/-- C2 counterexample to the claim as stated: a header whose sector
size 513 is not a power of two is nevertheless accepted by the
validation (signature and GUID both good), so acceptance is not
conditioned on the sector size being a power of two. -/
theorem c2_counterexample :
    checkVolumeHeader hdr513 = none ∧ specPow2 513 = false := by
  exact ⟨by decide, by decide⟩

/-- C2 witness: `sampleHdr` satisfies the three checks and is accepted;
the all-zero header fails the signature check and the driver run on its
image is fatal with exactly that failure. -/
theorem c2_header_validation_witness :
    checkVolumeHeader sampleHdr = none ∧
    runDriver zerosDisk 0 false = .fatal (.badSignature [0, 0, 0, 0, 0, 0, 0, 0]) :=
  ⟨(c2_header_validation.1 sampleHdr).mpr ⟨by decide, by decide, by decide⟩,
   c2_header_validation.2 zerosDisk 0 false zeroHdr (.badSignature [0, 0, 0, 0, 0, 0, 0, 0])
     (by decide) (by decide)⟩

/-- C6: when the header is good but zero of the three metadata-block
candidates validate (`validInfoSize` is still 0), the run ends with the
fatal "invalid or no metadata blocks found!" outcome (non-zero exit)
and no erase region is ever planned (the outcome is not `done`). -/
theorem c6_no_valid_blocks (disk : List Nat) (off : Nat) (w : Bool) (hdr : VolumeHeader)
    (hparse : parseVolumeHeader (disk.drop off) = some hdr)
    (hcheck : checkVolumeHeader hdr = none)
    (hzero : (scanBlocks disk off hdr).validInfoSize = 0) :
    runDriver disk off w = .fatal .noValidBlocks ∧
      ∀ rs, runDriver disk off w ≠ .done rs := by
  have h1 : runDriver disk off w = .fatal .noValidBlocks := by
    unfold runDriver
    simp only [hparse, hcheck]
    rw [if_pos hzero]
  exact ⟨h1, fun rs h => by rw [h1] at h; exact RunOutcome.noConfusion h⟩

/-- C6 witness: on the header-only image every candidate read hits the
end of the stream, none validates, and the run is fatal without a wipe. -/
theorem c6_no_valid_blocks_witness :
    runDriver headerOnlyDisk 0 true = .fatal .noValidBlocks ∧
      ∀ rs, runDriver headerOnlyDisk 0 true ≠ .done rs :=
  c6_no_valid_blocks headerOnlyDisk 0 true sampleHdr (by decide) (by decide) (by decide)

/-- C9: for every non-negative size `S` and every power-of-two sector
size `2 ^ k`, the source's rounding expression
`(S + P - 1) & ^(P - 1)` yields a value `R` with `R ≥ S`, `R mod P = 0`
and `R - S < P`. -/
theorem c9_rounding (S : Int) (k : Nat) (hS : 0 ≤ S) :
    S ≤ roundToSector S (2 ^ k) ∧ roundToSector S (2 ^ k) % 2 ^ k = 0 ∧
      roundToSector S (2 ^ k) - S < 2 ^ k := by
  obtain ⟨s, rfl⟩ := Int.eq_ofNat_of_zero_le hS
  have hcast : ((2 : Int) ^ k) = ((2 ^ k : Nat) : Int) := by push_cast; rfl
  rw [hcast, roundToSector_natCast]
  have hq1 : 1 ≤ 2 ^ k := Nat.one_le_two_pow
  have hB : (2 ^ k * ((s + 2 ^ k - 1) / 2 ^ k)) % 2 ^ k = 0 := by
    rw [Nat.mul_comm]
    exact Nat.mul_mod_left _ _
  have hdm := Nat.div_add_mod (s + 2 ^ k - 1) (2 ^ k)
  have hmlt : (s + 2 ^ k - 1) % 2 ^ k < 2 ^ k := Nat.mod_lt _ (Nat.two_pow_pos k)
  generalize hm : 2 ^ k * ((s + 2 ^ k - 1) / 2 ^ k) = m at hB hdm ⊢
  generalize hr : (s + 2 ^ k - 1) % 2 ^ k = r at hdm hmlt
  refine ⟨by omega, by exact_mod_cast hB, by omega⟩

/-- C9 witness: at size 100 and sector size `2 ^ 9 = 512` the rounded
value satisfies all three properties. -/
theorem c9_rounding_witness :
    (0 : Int) ≤ 100 ∧
      ((100 : Int) ≤ roundToSector 100 (2 ^ 9) ∧ roundToSector 100 (2 ^ 9) % 2 ^ 9 = 0 ∧
        roundToSector 100 (2 ^ 9) - 100 < 2 ^ 9) :=
  ⟨by norm_num, c9_rounding 100 9 (by norm_num)⟩

/-- C5: the wipe loop (a) always builds a random buffer of exactly the
region's length, (b) when the entropy source never fails, emits one
event per region in list order — a completed overwrite at
`base + region.Offset` with the fresh buffer when the write succeeds, a
reported write failure otherwise, the loop continuing either way — and
(c) when the entropy source first fails at the `k`-th region, the
earlier regions produce their events and the run aborts there, with no
later region attempted. -/
theorem c5_wipe_executor :
    (∀ (env : WipeEnv) (i : Nat) (r : RegionDesc), (wipeBuf env i r).length = r.Size) ∧
    (∀ (env : WipeEnv) (base : Nat) (regions : List RegionDesc) (i : Nat),
      (∀ j, j < regions.length → env.randOk (i + j) = true) →
      wipeRegions env base regions i =
        (regions.enumFrom i).map (fun p => wipeEvent env base p.1 p.2)) ∧
    (∀ (env : WipeEnv) (base : Nat) (regions : List RegionDesc) (i k : Nat),
      k < regions.length → (∀ j, j < k → env.randOk (i + j) = true) →
      env.randOk (i + k) = false →
      wipeRegions env base regions i =
        ((regions.take k).enumFrom i).map (fun p => wipeEvent env base p.1 p.2) ++
          [WipeEvent.abortEntropy]) := by
  refine ⟨fun env i r => by simp [wipeBuf], ?_, ?_⟩
  · intro env base regions
    induction regions with
    | nil => intro i h; rfl
    | cons r rest ih =>
      intro i h
      have h0 : env.randOk i = true := by simpa using h 0 (by simp)
      rw [show wipeRegions env base (r :: rest) i =
            (if env.randOk i then wipeEvent env base i r :: wipeRegions env base rest (i + 1)
             else [WipeEvent.abortEntropy]) from rfl,
        if_pos h0, List.enumFrom_cons, List.map_cons]
      congr 1
      exact ih (i + 1) fun j hj => by
        rw [show i + 1 + j = i + (j + 1) by omega]
        exact h (j + 1) (by simp only [List.length_cons]; omega)
  · intro env base regions
    induction regions with
    | nil => intro i k hk; exact absurd hk (by simp)
    | cons r rest ih =>
      intro i k hk hbefore hfail
      cases k with
      | zero =>
        have h0 : env.randOk i = false := by simpa using hfail
        rw [show wipeRegions env base (r :: rest) i =
              (if env.randOk i then wipeEvent env base i r :: wipeRegions env base rest (i + 1)
               else [WipeEvent.abortEntropy]) from rfl,
          if_neg (by simp [h0])]
        simp
      | succ n =>
        have h0 : env.randOk i = true := by simpa using hbefore 0 (by omega)
        rw [show wipeRegions env base (r :: rest) i =
              (if env.randOk i then wipeEvent env base i r :: wipeRegions env base rest (i + 1)
               else [WipeEvent.abortEntropy]) from rfl,
          if_pos h0,
          ih (i + 1) n (by simpa using hk)
            (fun j hj => by
              rw [show i + 1 + j = i + (j + 1) by omega]
              exact hbefore (j + 1) (by omega))
            (by rw [show i + 1 + n = i + (n + 1) by omega]; exact hfail)]
        simp [List.enumFrom_cons]

/-- C5 witness: on two concrete regions, an environment whose write
fails for region 1 produces both events in order; an environment whose
entropy fails from region 1 on produces region 0's event and aborts. -/
theorem c5_wipe_executor_witness :
    wipeRegions envWriteFail 7 sampleRegions 0 =
      (sampleRegions.enumFrom 0).map (fun p => wipeEvent envWriteFail 7 p.1 p.2) ∧
    wipeRegions envEntropyFail 7 sampleRegions 0 =
      ((sampleRegions.take 1).enumFrom 0).map (fun p => wipeEvent envEntropyFail 7 p.1 p.2) ++
        [WipeEvent.abortEntropy] :=
  ⟨c5_wipe_executor.2.1 envWriteFail 7 sampleRegions 0 (by decide),
   c5_wipe_executor.2.2 envEntropyFail 7 sampleRegions 0 1 (by decide) (by decide) (by decide)⟩

end Blwipe
